import Mathlib

/-!
Shallow embedding of the skpr terraform-provider-opensearch core:
the three resource lifecycles (model group, connector, model register)
and the ML task polling loop `waitForMLTaskCompletion`.

Modelling conventions:
- Terraform framework string attributes (`types.String`) are `TFString`
  (null / unknown / value), with `valueString`, `isNull`, `isUnknown`
  mirroring the framework accessors (null and unknown read as "").
- An HTTP response body, as consumed by Go `encoding/json.Unmarshal`
  into flat structs whose fields are strings tagged `omitempty`, is a
  `JSONBody`: either `malformed` (Unmarshal returns an error) or
  `object raw fields` (Unmarshal succeeds; a missing field leaves the
  Go zero value "", exactly as `encoding/json` does). `raw` is the
  byte content, used by the code only in formatted error messages.
- A remote call (`client.Client.Perform` followed by `io.ReadAll`) is a
  `PerformResult`: transport error, or a status code together with the
  result of reading the body.
- The `select` loop of `waitForMLTaskCompletion` is embedded as a
  function over a trace of `PollEvent`s: the events the select statement
  can receive, in the order the Go runtime delivers them. A `tick`
  carries the outcome of the status request performed in that branch.
  `time.NewTicker` delivers its first tick one full interval after
  construction, so an event that sits before the first `tick` in a trace
  is one that fired before any status request was issued.
- Each Go `return` site (or terraform diagnostic-error-and-return site)
  becomes one constructor of an outcome type; `State.Set` / automatic
  state removal by the framework is described in the doc comment of the
  corresponding constructor.
Paths that precede any modelled behaviour (plan/state decoding failures,
client construction failures, request construction failures) are outside
the embedding: the inputs of each function are the already-decoded data.
-/

/-- Terraform framework string value (`types.String`). -/
inductive TFString
  | null
  | unknown
  | value (s : String)
deriving DecidableEq, Repr

/-- `types.String.ValueString`: the known value, or "" for null/unknown. -/
def TFString.valueString : TFString → String
  | .value s => s
  | _ => ""

/-- `types.String.IsNull`. -/
def TFString.isNull : TFString → Bool
  | .null => true
  | _ => false

/-- `types.String.IsUnknown`. -/
def TFString.isUnknown : TFString → Bool
  | .unknown => true
  | _ => false

/-- A response body as seen by `encoding/json.Unmarshal` targeting a flat
struct of string fields: `malformed` when Unmarshal errors, otherwise the
set of string fields present, plus the raw bytes (used in messages). -/
inductive JSONBody
  | malformed (raw : String)
  | object (raw : String) (fields : List (String × String))
deriving DecidableEq, Repr

/-- The raw bytes of the body, `string(body)` in the Go code. -/
def JSONBody.raw : JSONBody → String
  | .malformed r => r
  | .object r _ => r

/-- Field extraction under Go `encoding/json` semantics: a missing field
leaves the struct field at its zero value "". -/
def lookupString (fields : List (String × String)) (k : String) : String :=
  (fields.lookup k).getD ""

/-- Result of one remote call: `client.Client.Perform` error, or a status
code plus the result of `io.ReadAll(resp.Body)`. -/
inductive PerformResult
  | transportErr (e : String)
  | response (statusCode : Nat) (bodyRead : Except String JSONBody)
deriving Repr

/-! ## internal/opensearch types (src/unnamed/part_000) -/

def TaskStateCompleted : String := "COMPLETED"

def TaskStateFailed : String := "FAILED"

/-- `ModelGroupCreateResponse`, field `model_group_id,omitempty`. -/
structure ModelGroupCreateResponse where
  ModelGroupID : String
deriving DecidableEq, Repr

/-- `ConnectorCreateResponse`, field `connector_id,omitempty`. -/
structure ConnectorCreateResponse where
  ConnectorID : String
deriving DecidableEq, Repr

/-- `ModelRegisterResponse`, fields `task_id`, `status`. -/
structure ModelRegisterResponse where
  TaskID : String
  Status : String
deriving DecidableEq, Repr

/-- `TaskGetResponse`, fields `task_id`, `state`, `model_id` (the
`response` map field is never consulted by the code and is omitted). -/
structure TaskGetResponse where
  TaskID : String
  State : String
  ModelID : String
deriving DecidableEq, Repr

/-- `json.Unmarshal(body, &ModelGroupCreateResponse)`. -/
def unmarshalModelGroupCreateResponse : JSONBody → Option ModelGroupCreateResponse
  | .malformed _ => none
  | .object _ fs => some ⟨lookupString fs "model_group_id"⟩

/-- `json.Unmarshal(body, &ConnectorCreateResponse)`. -/
def unmarshalConnectorCreateResponse : JSONBody → Option ConnectorCreateResponse
  | .malformed _ => none
  | .object _ fs => some ⟨lookupString fs "connector_id"⟩

/-- `json.Unmarshal(body, &ModelRegisterResponse)`. -/
def unmarshalModelRegisterResponse : JSONBody → Option ModelRegisterResponse
  | .malformed _ => none
  | .object _ fs => some ⟨lookupString fs "task_id", lookupString fs "status"⟩

/-- `json.Unmarshal(body, &TaskGetResponse)`. -/
def unmarshalTaskGetResponse : JSONBody → Option TaskGetResponse
  | .malformed _ => none
  | .object _ fs =>
    some ⟨lookupString fs "task_id", lookupString fs "state", lookupString fs "model_id"⟩

/-! ## Task poller: waitForMLTaskCompletion (src/unnamed/part_001, lines 523-585) -/

/-- `timeout.String()` for the 15 minute deadline constant:
`(15 * time.Minute).String() = "15m0s"`. -/
def timeoutDurationString : String := "15m0s"

/-- An event the `select` statement of the polling loop can receive, in
delivery order: context cancellation, the deadline timer firing, or a
ticker tick (carrying the outcome of the status request performed in
that branch). -/
inductive PollEvent
  | ctxDone
  | deadline
  | tick (pr : PerformResult)
deriving Repr

/-- `PollEvent.tick` recognizer: the only event kind on which the loop
issues a task-status request. -/
def PollEvent.isTick : PollEvent → Bool
  | .tick _ => true
  | _ => false

/-- Result of `waitForMLTaskCompletion`, one constructor per return site:
`done id` is `return id, nil`; every other constructor is a distinct
`return "", err`. `stillWaiting` means the trace ended with the loop
still blocked in `select` (no return has happened yet). -/
inductive PollResult
  | done (modelID : String)
  | ctxCancelled
  | timedOut (msg : String)
  | transportErr (msg : String)
  | readErr (msg : String)
  | remoteRejected (msg : String)
  | unmarshalErr
  | completedNoModelID (msg : String)
  | taskFailed (msg : String)
  | stillWaiting
deriving DecidableEq, Repr

/-- The body of the `case <-ticker.C:` branch of `waitForMLTaskCompletion`
applied to one status-request outcome: `some r` when the branch returns
with `r`, `none` when it falls through and the loop keeps waiting. -/
def classifyTickResponse (taskID : String) (pr : PerformResult) : Option PollResult :=
  match pr with
  | .transportErr e => some (.transportErr e)
  | .response code bodyRead =>
    match bodyRead with
    | .error e => some (.readErr e)
    | .ok b =>
      if code < 200 ∨ 300 ≤ code then
        some (.remoteRejected
          ("OpenSearch returned " ++ toString code ++ " while polling task: " ++ b.raw))
      else
        match unmarshalTaskGetResponse b with
        | none => some .unmarshalErr
        | some taskResp =>
          if taskResp.State = TaskStateCompleted then
            if taskResp.ModelID ≠ "" then some (.done taskResp.ModelID)
            else some (.completedNoModelID "task completed but we could not find the model ID")
          else if taskResp.State = TaskStateFailed then
            some (.taskFailed ("task " ++ taskID ++ " failed: " ++ b.raw))
          else
            none

/-- `waitForMLTaskCompletion` over a delivery trace of select events.
Returns the poll result together with the number of task-status requests
issued. `case <-ctx.Done():` returns `ctx.Err()`; `case <-deadline.C:`
returns the formatted timeout error; `case <-ticker.C:` performs one
status request and classifies it. -/
def waitForMLTaskCompletion (taskID : String) : List PollEvent → PollResult × Nat
  | [] => (.stillWaiting, 0)
  | .ctxDone :: _ => (.ctxCancelled, 0)
  | .deadline :: _ =>
    (.timedOut ("timed out after " ++ timeoutDurationString ++ " waiting for task " ++ taskID), 0)
  | .tick pr :: rest =>
    match classifyTickResponse taskID pr with
    | some r => (r, 1)
    | none =>
      let w := waitForMLTaskCompletion taskID rest
      (w.1, w.2 + 1)

/-- An event that leaves the loop waiting: a tick whose classification
falls through (2xx, parseable, state neither COMPLETED nor FAILED). -/
def keepsWaiting (taskID : String) : PollEvent → Bool
  | .tick pr => (classifyTickResponse taskID pr).isNone
  | _ => false

/-! ## Resource data models -/

/-- `ModelGroupModel` (src/unnamed/part_001, lines 36-40). -/
structure ModelGroupModel where
  ID : TFString
  Name : TFString
  Description : TFString
deriving DecidableEq, Repr

/-- `ConnectorModel` (src/internal/provider/connector.go, lines 36-39). -/
structure ConnectorModel where
  ID : TFString
  Body : TFString
deriving DecidableEq, Repr

/-- `ModelRegisterModel` (src/unnamed/part_001, lines 373-376). -/
structure ModelRegisterModel where
  ModelID : TFString
  Body : TFString
deriving DecidableEq, Repr

/-! ## Shared lifecycle outcome types

Each constructor corresponds to one return site of the Go method it is
used for; the three resources share the Go control flow exactly, so they
share the outcome types (the diagnostic title strings, which differ per
resource, carry no information the claims mention and are elided). -/

/-- Outcome of a synchronous Create (model group, connector), one
constructor per return site. Only `success id` reaches
`resp.State.Set`, storing `id` as the remote identifier. -/
inductive CreateOutcome
  | transportErr (msg : String)
  | readErr (msg : String)
  | remoteRejected (status : Nat) (body : String)
  | malformedResponse
  | success (id : String)
deriving DecidableEq, Repr

/-- Whether a synchronous Create outcome is the `json.Unmarshal` failure
path (the only 2xx path that is fatal to the call). -/
def CreateOutcome.isMalformed : CreateOutcome → Bool
  | .malformedResponse => true
  | _ => false

/-- Outcome of `ModelRegisterResource.Create`, one constructor per return
site. `pollFailed r` is `waitForMLTaskCompletion` returning an error
`r`; `emptyModelID` is the explicit `modelID == ""` check; only
`success id` reaches `resp.State.Set`. `stillPolling` means the poll
trace ended with the loop still blocked. -/
inductive ModelRegisterCreateOutcome
  | transportErr (msg : String)
  | readErr (msg : String)
  | remoteRejected (status : Nat) (body : String)
  | malformedResponse
  | pollFailed (r : PollResult)
  | emptyModelID
  | success (modelID : String)
  | stillPolling
deriving DecidableEq, Repr

/-- Outcome of a Read, one constructor per return site. `removedNoID`
and `removedNotFound` call `resp.State.RemoveResource` (artifact
reported absent); `present` re-stores the held state unchanged via
`resp.State.Set`; the rest add an error diagnostic and leave state
untouched. -/
inductive ReadOutcome
  | removedNoID
  | transportErr (msg : String)
  | removedNotFound
  | readErr (msg : String)
  | remoteRejected (status : Nat) (body : String)
  | present
deriving DecidableEq, Repr

/-- Outcome of a Delete, one constructor per return site. The three
success constructors return without adding an error diagnostic (the
framework then drops the resource from state); the rest add an error
diagnostic, which makes the framework keep the stored identifier. -/
inductive DeleteOutcome
  | successNoID
  | transportErr (msg : String)
  | readErr (msg : String)
  | successAlreadyGone
  | remoteRejected (status : Nat) (body : String)
  | success
deriving DecidableEq, Repr

/-- A Delete call succeeded (no error diagnostic was added). -/
def DeleteOutcome.isSuccess : DeleteOutcome → Bool
  | .successNoID => true
  | .successAlreadyGone => true
  | .success => true
  | _ => false

/-- Terraform framework handling of stored state after Delete (external
collaborator, terraform-plugin-framework): on success the resource is
dropped from state (`none`), on an error diagnostic the previously
stored identifier is kept unchanged. -/
def stateAfterDelete (id : TFString) (outcome : DeleteOutcome) : Option TFString :=
  if outcome.isSuccess then none else some id

/-! ## ConnectorResource (src/internal/provider/connector.go) -/

/-- `ConnectorResource.Create` (connector.go, lines 96-167) from the
point where the plan is decoded: POST the body, read the response,
reject non-2xx, unmarshal `ConnectorCreateResponse`, store the id. -/
def ConnectorResource.Create (planBody : String) (performResult : PerformResult) :
    CreateOutcome :=
  match performResult with
  | .transportErr e => .transportErr ("Could not register model: " ++ e)
  | .response code bodyRead =>
    match bodyRead with
    | .error e => .readErr e
    | .ok b =>
      if code < 200 ∨ 300 ≤ code then
        .remoteRejected code b.raw
      else
        match unmarshalConnectorCreateResponse b with
        | none => .malformedResponse
        | some createResponse => .success createResponse.ConnectorID

/-- `ConnectorResource.Read` (connector.go, lines 170-230). Returns the
outcome and whether a remote request was issued. The empty/null/unknown
id guard removes the resource before any request; a 404 removes it
before the body is even read. -/
def ConnectorResource.Read (id : TFString) (performResult : PerformResult) :
    ReadOutcome × Bool :=
  if id.isNull || id.isUnknown || id.valueString == "" then
    (.removedNoID, false)
  else
    match performResult with
    | .transportErr e => (.transportErr e, true)
    | .response code bodyRead =>
      if code = 404 then
        (.removedNotFound, true)
      else
        match bodyRead with
        | .error e => (.readErr e, true)
        | .ok b =>
          if code < 200 ∨ 300 ≤ code then (.remoteRejected code b.raw, true)
          else (.present, true)

/-- `ConnectorResource.Update` (connector.go, lines 233-248): decode the
plan, log, and persist the planned state. Returns the state stored by
`resp.State.Set` and the number of remote requests issued (the body
performs none). -/
def ConnectorResource.Update (plan : ConnectorModel) : ConnectorModel × Nat :=
  (plan, 0)

/-- `ConnectorResource.Delete` (connector.go, lines 251-314). Returns the
outcome and whether a remote request was issued. Missing id returns
before any request; 404 is treated as already deleted. -/
def ConnectorResource.Delete (id : TFString) (performResult : PerformResult) :
    DeleteOutcome × Bool :=
  if id.isNull || id.isUnknown || id.valueString == "" then
    (.successNoID, false)
  else
    match performResult with
    | .transportErr e => (.transportErr e, true)
    | .response code bodyRead =>
      match bodyRead with
      | .error e => (.readErr e, true)
      | .ok b =>
        if code = 404 then
          (.successAlreadyGone, true)
        else if code < 200 ∨ 300 ≤ code then
          (.remoteRejected code b.raw, true)
        else
          (.success, true)

/-! ## ModelGroupResource (src/unnamed/part_001, lines 26-336) -/

/-- `ModelGroupResource.Create` (part_001, lines 104-189): marshal the
`ModelGroupCreateRequest` (marshalling a struct of two strings cannot
fail), POST it, read the response, reject non-2xx, unmarshal
`ModelGroupCreateResponse`, store the id. -/
def ModelGroupResource.Create (name description : String)
    (performResult : PerformResult) : CreateOutcome :=
  match performResult with
  | .transportErr e => .transportErr ("Could not register model: " ++ e)
  | .response code bodyRead =>
    match bodyRead with
    | .error e => .readErr e
    | .ok b =>
      if code < 200 ∨ 300 ≤ code then
        .remoteRejected code b.raw
      else
        match unmarshalModelGroupCreateResponse b with
        | none => .malformedResponse
        | some createResponse => .success createResponse.ModelGroupID

/-- `ModelGroupResource.Read` (part_001, lines 192-252). -/
def ModelGroupResource.Read (id : TFString) (performResult : PerformResult) :
    ReadOutcome × Bool :=
  if id.isNull || id.isUnknown || id.valueString == "" then
    (.removedNoID, false)
  else
    match performResult with
    | .transportErr e => (.transportErr e, true)
    | .response code bodyRead =>
      if code = 404 then
        (.removedNotFound, true)
      else
        match bodyRead with
        | .error e => (.readErr e, true)
        | .ok b =>
          if code < 200 ∨ 300 ≤ code then (.remoteRejected code b.raw, true)
          else (.present, true)

/-- `ModelGroupResource.Update` (part_001, lines 255-270): persist the
planned state; no remote request. -/
def ModelGroupResource.Update (plan : ModelGroupModel) : ModelGroupModel × Nat :=
  (plan, 0)

/-- `ModelGroupResource.Delete` (part_001, lines 273-336). -/
def ModelGroupResource.Delete (id : TFString) (performResult : PerformResult) :
    DeleteOutcome × Bool :=
  if id.isNull || id.isUnknown || id.valueString == "" then
    (.successNoID, false)
  else
    match performResult with
    | .transportErr e => (.transportErr e, true)
    | .response code bodyRead =>
      match bodyRead with
      | .error e => (.readErr e, true)
      | .ok b =>
        if code = 404 then
          (.successAlreadyGone, true)
        else if code < 200 ∨ 300 ≤ code then
          (.remoteRejected code b.raw, true)
        else
          (.success, true)

/-! ## ModelRegisterResource (src/unnamed/part_001, lines 363-732) -/

/-- `ModelRegisterResource.Create` (part_001, lines 433-520): POST the
plan body to the register endpoint, read the response, reject non-2xx,
unmarshal `ModelRegisterResponse`, then block in
`waitForMLTaskCompletion` on the returned task id over the given poll
trace. Returns the outcome and the number of task-status requests
issued (0 whenever the poller was never invoked). -/
def ModelRegisterResource.Create (planBody : String)
    (registerResult : PerformResult) (pollTrace : List PollEvent) :
    ModelRegisterCreateOutcome × Nat :=
  match registerResult with
  | .transportErr e => (.transportErr ("Could not register model: " ++ e), 0)
  | .response code bodyRead =>
    match bodyRead with
    | .error e => (.readErr e, 0)
    | .ok b =>
      if code < 200 ∨ 300 ≤ code then
        (.remoteRejected code b.raw, 0)
      else
        match unmarshalModelRegisterResponse b with
        | none => (.malformedResponse, 0)
        | some registerResponse =>
          let w := waitForMLTaskCompletion registerResponse.TaskID pollTrace
          match w.1 with
          | .done modelID =>
            if modelID = "" then (.emptyModelID, w.2) else (.success modelID, w.2)
          | .stillWaiting => (.stillPolling, w.2)
          | r => (.pollFailed r, w.2)

/-- `ModelRegisterResource.Read` (part_001, lines 588-648). -/
def ModelRegisterResource.Read (id : TFString) (performResult : PerformResult) :
    ReadOutcome × Bool :=
  if id.isNull || id.isUnknown || id.valueString == "" then
    (.removedNoID, false)
  else
    match performResult with
    | .transportErr e => (.transportErr e, true)
    | .response code bodyRead =>
      if code = 404 then
        (.removedNotFound, true)
      else
        match bodyRead with
        | .error e => (.readErr e, true)
        | .ok b =>
          if code < 200 ∨ 300 ≤ code then (.remoteRejected code b.raw, true)
          else (.present, true)

/-- `ModelRegisterResource.Update` (part_001, lines 651-666): persist the
planned state; no remote request. -/
def ModelRegisterResource.Update (plan : ModelRegisterModel) : ModelRegisterModel × Nat :=
  (plan, 0)

/-- `ModelRegisterResource.Delete` (part_001, lines 669-732). -/
def ModelRegisterResource.Delete (id : TFString) (performResult : PerformResult) :
    DeleteOutcome × Bool :=
  if id.isNull || id.isUnknown || id.valueString == "" then
    (.successNoID, false)
  else
    match performResult with
    | .transportErr e => (.transportErr e, true)
    | .response code bodyRead =>
      match bodyRead with
      | .error e => (.readErr e, true)
      | .ok b =>
        if code = 404 then
          (.successAlreadyGone, true)
        else if code < 200 ∨ 300 ≤ code then
          (.remoteRejected code b.raw, true)
        else
          (.success, true)

/-! ## Helper lemmas about the polling loop -/

/-- A tick whose classification falls through leaves the result of the
remaining trace unchanged and adds one issued request. -/
theorem tick_skip (taskID : String) (pr : PerformResult) (rest : List PollEvent)
    (h : classifyTickResponse taskID pr = none) :
    waitForMLTaskCompletion taskID (.tick pr :: rest) =
      ((waitForMLTaskCompletion taskID rest).1,
       (waitForMLTaskCompletion taskID rest).2 + 1) := by
  simp [waitForMLTaskCompletion, h]

/-- A leading run of keep-waiting ticks only adds its length to the
request count; the outcome is decided by the remainder of the trace. -/
theorem waiting_run_skip (taskID : String) (run suf : List PollEvent)
    (h : ∀ e ∈ run, keepsWaiting taskID e = true) :
    waitForMLTaskCompletion taskID (run ++ suf) =
      ((waitForMLTaskCompletion taskID suf).1,
       (waitForMLTaskCompletion taskID suf).2 + run.length) := by
  induction run with
  | nil => simp
  | cons e es ih =>
    have he : keepsWaiting taskID e = true := h e (List.mem_cons_self e es)
    have hes : ∀ x ∈ es, keepsWaiting taskID x = true :=
      fun x hx => h x (List.mem_cons_of_mem e hx)
    cases e with
    | ctxDone => simp [keepsWaiting] at he
    | deadline => simp [keepsWaiting] at he
    | tick pr =>
      have hcl : classifyTickResponse taskID pr = none := by
        simpa [keepsWaiting, Option.isNone_iff_eq_none] using he
      rw [List.cons_append, tick_skip taskID pr (es ++ suf) hcl, ih hes]
      simp [Nat.add_assoc]

/-- The poller issues at most one task-status request per tick event in
the delivery trace. -/
theorem poll_count_le_ticks (taskID : String) (trace : List PollEvent) :
    (waitForMLTaskCompletion taskID trace).2 ≤ trace.countP PollEvent.isTick := by
  induction trace with
  | nil => simp [waitForMLTaskCompletion]
  | cons e rest ih =>
    cases e with
    | ctxDone => simp [waitForMLTaskCompletion, List.countP_cons]
    | deadline => simp [waitForMLTaskCompletion, List.countP_cons]
    | tick pr =>
      have hc : (PollEvent.tick pr :: rest).countP PollEvent.isTick
          = rest.countP PollEvent.isTick + 1 := by
        simp [List.countP_cons, PollEvent.isTick]
      rw [hc]
      cases hcl : classifyTickResponse taskID pr with
      | some r => simp [waitForMLTaskCompletion, hcl]
      | none =>
        simp only [waitForMLTaskCompletion, hcl]
        omega

/-! ## Claim theorems -/

/-- C1 counterexample: the connector Create receives a 2xx response whose
body is the valid JSON object with no fields at all (so the expected
`connector_id` identifier field is absent), and the call does NOT fail:
`json.Unmarshal` succeeds, leaving the Go zero value, and the empty
identifier is stored as a success. The claimed MalformedResponse failure
does not occur. -/
theorem c1_missing_id_counterexample :
    ConnectorResource.Create "" (.response 200 (.ok (.object "\x7b\x7d" []))) =
      CreateOutcome.success "" ∧
    (ConnectorResource.Create "" (.response 200 (.ok (.object "\x7b\x7d" [])))).isMalformed
      = false := by
  constructor <;> rfl

/-- C1 amended: a 2xx create response is fatal only when its body fails
to parse as JSON at all. A parseable 2xx body missing the identifier
field is silently tolerated by the synchronous Creates (model group and
connector store the empty identifier as a success), and a 2xx task-poll
response missing the state field is treated as still-in-progress (the
loop keeps waiting), not as a fatal malformed response. -/
theorem c1_amended_parse_failure_only (planBody name description raw taskID : String)
    (fs : List (String × String)) (rest : List PollEvent)
    (hconn : fs.lookup "connector_id" = none)
    (hmg : fs.lookup "model_group_id" = none)
    (hstate : fs.lookup "state" = none) :
    ConnectorResource.Create planBody (.response 200 (.ok (.malformed raw))) =
      CreateOutcome.malformedResponse ∧
    ModelGroupResource.Create name description (.response 200 (.ok (.malformed raw))) =
      CreateOutcome.malformedResponse ∧
    ConnectorResource.Create planBody (.response 200 (.ok (.object raw fs))) =
      CreateOutcome.success "" ∧
    ModelGroupResource.Create name description (.response 200 (.ok (.object raw fs))) =
      CreateOutcome.success "" ∧
    waitForMLTaskCompletion taskID
        (.tick (.response 200 (.ok (.object raw fs))) :: rest) =
      ((waitForMLTaskCompletion taskID rest).1,
       (waitForMLTaskCompletion taskID rest).2 + 1) := by
  refine ⟨?_, ?_, ?_, ?_, ?_⟩
  · simp [ConnectorResource.Create, unmarshalConnectorCreateResponse]
  · simp [ModelGroupResource.Create, unmarshalModelGroupCreateResponse]
  · simp [ConnectorResource.Create, unmarshalConnectorCreateResponse,
          lookupString, hconn]
  · simp [ModelGroupResource.Create, unmarshalModelGroupCreateResponse,
          lookupString, hmg]
  · exact tick_skip taskID _ rest (by
      simp [classifyTickResponse, unmarshalTaskGetResponse, lookupString, hstate,
            TaskStateCompleted, TaskStateFailed])

/-- C1 amended, witness at concrete inputs: the empty JSON object as a
2xx body. -/
theorem c1_amended_witness :
    ConnectorResource.Create "" (.response 200 (.ok (.malformed "not json"))) =
      CreateOutcome.malformedResponse ∧
    ModelGroupResource.Create "n" "d" (.response 200 (.ok (.malformed "not json"))) =
      CreateOutcome.malformedResponse ∧
    ConnectorResource.Create "" (.response 200 (.ok (.object "\x7b\x7d" []))) =
      CreateOutcome.success "" ∧
    ModelGroupResource.Create "n" "d" (.response 200 (.ok (.object "\x7b\x7d" []))) =
      CreateOutcome.success "" ∧
    waitForMLTaskCompletion "t"
        (.tick (.response 200 (.ok (.object "\x7b\x7d" []))) :: []) =
      ((waitForMLTaskCompletion "t" []).1,
       (waitForMLTaskCompletion "t" []).2 + 1) := by
  have h := c1_amended_parse_failure_only "" "n" "d" "not json" "t" [] [] rfl rfl rfl
  exact ⟨h.1, h.2.1, h.2.2.1, h.2.2.2.1, by
    have := h.2.2.2.2
    simpa using this⟩

/-- C2: after any run of keep-waiting polls, a deadline event makes the
poller return TIMED_OUT with the elapsed duration (the 15 minute bound)
and the task identifier in the message, while a cancellation event makes
it return the context cancellation (CANCELLED), never TIMED_OUT. In both
cases the poller resolves at that very event: the returned outcome and
the number of status requests issued (one per preceding tick) do not
depend on anything delivered after the event, so the loop stops within
the tick granularity and never blocks past it. -/
theorem c2_deadline_timeout_cancel_stops (taskID : String)
    (run rest rest2 : List PollEvent)
    (h : ∀ e ∈ run, keepsWaiting taskID e = true) :
    waitForMLTaskCompletion taskID (run ++ PollEvent.deadline :: rest) =
      (PollResult.timedOut ("timed out after 15m0s waiting for task " ++ taskID),
       run.length) ∧
    waitForMLTaskCompletion taskID (run ++ PollEvent.ctxDone :: rest2) =
      (PollResult.ctxCancelled, run.length) := by
  constructor
  · rw [waiting_run_skip taskID run _ h]
    simp [waitForMLTaskCompletion, timeoutDurationString]
  · rw [waiting_run_skip taskID run _ h]
    simp [waitForMLTaskCompletion]

/-- C2 witness: one RUNNING poll, then the deadline fires (resp. the
context is cancelled); the poller resolves at that event. -/
theorem c2_witness :
    waitForMLTaskCompletion "task1"
        ([PollEvent.tick (.response 200 (.ok (.object "r" [("state", "RUNNING")])))] ++
          PollEvent.deadline :: []) =
      (PollResult.timedOut "timed out after 15m0s waiting for task task1", 1) ∧
    waitForMLTaskCompletion "task1"
        ([PollEvent.tick (.response 200 (.ok (.object "r" [("state", "RUNNING")])))] ++
          PollEvent.ctxDone :: []) =
      (PollResult.ctxCancelled, 1) :=
  c2_deadline_timeout_cancel_stops "task1"
    [PollEvent.tick (.response 200 (.ok (.object "r" [("state", "RUNNING")])))] [] []
    (by decide)

/-- C3: after any run of keep-waiting polls, a poll that observes a 2xx
response with state COMPLETED and a non-empty `model_id` makes the
poller return DONE with exactly that identifier, having issued exactly
one status request more than the run length; nothing delivered after
that tick (in particular no later deadline) is consulted. The witness
instantiates the spec scenario [RUNNING, RUNNING, COMPLETED(m1)]:
DONE("m1") after exactly 3 polls. -/
theorem c3_completed_returns_id (taskID m raw : String) (code : Nat)
    (fs : List (String × String)) (run rest : List PollEvent)
    (hrun : ∀ e ∈ run, keepsWaiting taskID e = true)
    (hcode : 200 ≤ code ∧ code < 300)
    (hstate : fs.lookup "state" = some "COMPLETED")
    (hmodel : fs.lookup "model_id" = some m)
    (hm : m ≠ "") :
    waitForMLTaskCompletion taskID
        (run ++ PollEvent.tick (.response code (.ok (.object raw fs))) :: rest) =
      (PollResult.done m, run.length + 1) := by
  rw [waiting_run_skip taskID run _ hrun]
  have hna : ¬(code < 200 ∨ 300 ≤ code) := by omega
  simp [waitForMLTaskCompletion, classifyTickResponse, hna,
        unmarshalTaskGetResponse, lookupString, hstate, hmodel,
        TaskStateCompleted, TaskStateFailed, hm, Nat.add_comm]

/-- C3 witness: the spec scenario [RUNNING, RUNNING, COMPLETED(m1)]
returns DONE("m1") after exactly 3 polls. -/
theorem c3_witness :
    waitForMLTaskCompletion "task1"
        ([PollEvent.tick (.response 200 (.ok (.object "r" [("state", "RUNNING")]))),
          PollEvent.tick (.response 200 (.ok (.object "r" [("state", "RUNNING")])))] ++
          PollEvent.tick (.response 200 (.ok (.object "c"
            [("state", "COMPLETED"), ("model_id", "m1")]))) :: []) =
      (PollResult.done "m1", 3) :=
  c3_completed_returns_id "task1" "m1" "c" 200
    [("state", "COMPLETED"), ("model_id", "m1")]
    [PollEvent.tick (.response 200 (.ok (.object "r" [("state", "RUNNING")]))),
     PollEvent.tick (.response 200 (.ok (.object "r" [("state", "RUNNING")])))] []
    (by decide) (by omega) rfl rfl (by decide)

/-- C4: a poll that observes a terminal failure returns immediately, at
that very tick, with exactly one status request issued and everything
after the tick ignored: state FAILED yields the task-failed error
carrying the remote body, and state COMPLETED with no identifier yields
the completed-without-identifier failure (not a timeout). -/
theorem c4_terminal_failure_immediate (taskID : String) (code : Nat) (b : JSONBody)
    (t : TaskGetResponse) (rest : List PollEvent)
    (hcode : 200 ≤ code ∧ code < 300)
    (hb : unmarshalTaskGetResponse b = some t) :
    (t.State = "FAILED" →
      waitForMLTaskCompletion taskID (PollEvent.tick (.response code (.ok b)) :: rest) =
        (PollResult.taskFailed ("task " ++ taskID ++ " failed: " ++ b.raw), 1)) ∧
    (t.State = "COMPLETED" → t.ModelID = "" →
      waitForMLTaskCompletion taskID (PollEvent.tick (.response code (.ok b)) :: rest) =
        (PollResult.completedNoModelID "task completed but we could not find the model ID",
         1)) := by
  have hna : ¬(code < 200 ∨ 300 ≤ code) := by omega
  constructor
  · intro hst
    simp [waitForMLTaskCompletion, classifyTickResponse, hna, hb, hst,
          TaskStateCompleted, TaskStateFailed]
  · intro hst hmid
    simp [waitForMLTaskCompletion, classifyTickResponse, hna, hb, hst, hmid,
          TaskStateCompleted, TaskStateFailed]

/-- C4 witness: a first poll observing `state: FAILED` (resp.
`state: COMPLETED` with no model id) resolves at that first tick. -/
theorem c4_witness :
    waitForMLTaskCompletion "task1"
        [PollEvent.tick (.response 200 (.ok (.object "bodyF" [("state", "FAILED")])))] =
      (PollResult.taskFailed "task task1 failed: bodyF", 1) ∧
    waitForMLTaskCompletion "task1"
        [PollEvent.tick (.response 200 (.ok (.object "bodyC" [("state", "COMPLETED")])))] =
      (PollResult.completedNoModelID "task completed but we could not find the model ID",
       1) :=
  ⟨(c4_terminal_failure_immediate "task1" 200 (.object "bodyF" [("state", "FAILED")])
      ⟨"", "FAILED", ""⟩ [] (by omega) rfl).1 rfl,
   (c4_terminal_failure_immediate "task1" 200 (.object "bodyC" [("state", "COMPLETED")])
      ⟨"", "COMPLETED", ""⟩ [] (by omega) rfl).2 rfl rfl⟩

/-- C5: a create/register request answered with any non-2xx status makes
Create fail with the rejected outcome carrying that status and the raw
body; the outcome is not `success`, so nothing is stored, and for the
model-register resource the request count is 0: the task poller is never
invoked, whatever poll trace would have been available. -/
theorem c5_remote_rejected_no_poll (planBody planBody2 : String) (code : Nat)
    (b : JSONBody) (pollTrace : List PollEvent)
    (h : code < 200 ∨ 300 ≤ code) :
    ModelRegisterResource.Create planBody (.response code (.ok b)) pollTrace =
      (ModelRegisterCreateOutcome.remoteRejected code b.raw, 0) ∧
    ConnectorResource.Create planBody2 (.response code (.ok b)) =
      CreateOutcome.remoteRejected code b.raw := by
  constructor
  · simp [ModelRegisterResource.Create, h]
  · simp [ConnectorResource.Create, h]

/-- C5 witness: HTTP 500 on the model-register adapter; zero poll
requests even though a completed poll trace was available. -/
theorem c5_witness :
    ModelRegisterResource.Create "body" (.response 500 (.ok (.object "oops" [])))
        [PollEvent.tick (.response 200 (.ok (.object "c"
          [("state", "COMPLETED"), ("model_id", "m1")])))] =
      (ModelRegisterCreateOutcome.remoteRejected 500 "oops", 0) ∧
    ConnectorResource.Create "body" (.response 500 (.ok (.object "oops" []))) =
      CreateOutcome.remoteRejected 500 "oops" :=
  c5_remote_rejected_no_poll "body" "body" 500 (.object "oops" [])
    [PollEvent.tick (.response 200 (.ok (.object "c"
      [("state", "COMPLETED"), ("model_id", "m1")])))]
    (by omega)

/-- C6: Delete is idempotent for every artifact kind. With an
empty/null/unknown identifier it returns success without issuing any
request; with a held identifier, a 2xx delete succeeds and a later
delete of the same identifier answered 404 by the remote also succeeds
(already gone), so calling Delete twice — the second call against an
already-404 remote — succeeds both times. -/
theorem c6_delete_idempotent (id : TFString) (code : Nat) (b1 b2 : JSONBody)
    (pr : PerformResult)
    (hcode : 200 ≤ code ∧ code < 300) :
    ((id.isNull || id.isUnknown || id.valueString == "") = true →
      ConnectorResource.Delete id pr = (.successNoID, false) ∧
      ModelGroupResource.Delete id pr = (.successNoID, false) ∧
      ModelRegisterResource.Delete id pr = (.successNoID, false)) ∧
    ((id.isNull || id.isUnknown || id.valueString == "") = false →
      (ConnectorResource.Delete id (.response code (.ok b1)) = (.success, true) ∧
        ConnectorResource.Delete id (.response 404 (.ok b2)) = (.successAlreadyGone, true)) ∧
      (ModelGroupResource.Delete id (.response code (.ok b1)) = (.success, true) ∧
        ModelGroupResource.Delete id (.response 404 (.ok b2)) = (.successAlreadyGone, true)) ∧
      (ModelRegisterResource.Delete id (.response code (.ok b1)) = (.success, true) ∧
        ModelRegisterResource.Delete id (.response 404 (.ok b2)) = (.successAlreadyGone, true))) := by
  constructor
  · intro hid
    refine ⟨?_, ?_, ?_⟩ <;>
      simp [ConnectorResource.Delete, ModelGroupResource.Delete,
            ModelRegisterResource.Delete, hid]
  · intro hid
    have h404 : ¬(code = 404) := by omega
    have h2 : ¬(code < 200 ∨ 300 ≤ code) := by omega
    refine ⟨⟨?_, ?_⟩, ⟨?_, ?_⟩, ⟨?_, ?_⟩⟩ <;>
      simp [ConnectorResource.Delete, ModelGroupResource.Delete,
            ModelRegisterResource.Delete, hid, h404, h2]

/-- C6 witness: a null identifier is a no-op for all three kinds, and for
a held identifier a 200 then a 404 delete both succeed. -/
theorem c6_witness :
    (ConnectorResource.Delete TFString.null (.response 200 (.ok (.object "" []))) =
        (.successNoID, false) ∧
      ModelGroupResource.Delete TFString.null (.response 200 (.ok (.object "" []))) =
        (.successNoID, false) ∧
      ModelRegisterResource.Delete TFString.null (.response 200 (.ok (.object "" []))) =
        (.successNoID, false)) ∧
    ((ConnectorResource.Delete (TFString.value "id1") (.response 200 (.ok (.object "" []))) =
        (.success, true) ∧
      ConnectorResource.Delete (TFString.value "id1") (.response 404 (.ok (.object "nf" []))) =
        (.successAlreadyGone, true)) ∧
      (ModelGroupResource.Delete (TFString.value "id1") (.response 200 (.ok (.object "" []))) =
        (.success, true) ∧
      ModelGroupResource.Delete (TFString.value "id1") (.response 404 (.ok (.object "nf" []))) =
        (.successAlreadyGone, true)) ∧
      (ModelRegisterResource.Delete (TFString.value "id1") (.response 200 (.ok (.object "" []))) =
        (.success, true) ∧
      ModelRegisterResource.Delete (TFString.value "id1") (.response 404 (.ok (.object "nf" []))) =
        (.successAlreadyGone, true))) :=
  ⟨(c6_delete_idempotent TFString.null 200 (.object "" []) (.object "nf" [])
      (.response 200 (.ok (.object "" []))) (by omega)).1 rfl,
   (c6_delete_idempotent (TFString.value "id1") 200 (.object "" []) (.object "nf" [])
      (.response 200 (.ok (.object "" []))) (by omega)).2 rfl⟩

/-- C7: for every artifact kind, a Delete answered with a non-2xx status
other than 404 fails with the rejected outcome carrying status and body,
and the stored identifier is kept: the call adds an error diagnostic, so
the framework leaves the previously held identifier in state. -/
theorem c7_delete_rejected_keeps_id (id : TFString) (code : Nat) (b : JSONBody)
    (hid : (id.isNull || id.isUnknown || id.valueString == "") = false)
    (h404 : code ≠ 404)
    (hcode : code < 200 ∨ 300 ≤ code) :
    ConnectorResource.Delete id (.response code (.ok b)) =
      (.remoteRejected code b.raw, true) ∧
    ModelGroupResource.Delete id (.response code (.ok b)) =
      (.remoteRejected code b.raw, true) ∧
    ModelRegisterResource.Delete id (.response code (.ok b)) =
      (.remoteRejected code b.raw, true) ∧
    stateAfterDelete id (ConnectorResource.Delete id (.response code (.ok b))).1 = some id ∧
    stateAfterDelete id (ModelGroupResource.Delete id (.response code (.ok b))).1 = some id ∧
    stateAfterDelete id (ModelRegisterResource.Delete id (.response code (.ok b))).1 =
      some id := by
  refine ⟨?_, ?_, ?_, ?_, ?_, ?_⟩ <;>
    simp [ConnectorResource.Delete, ModelGroupResource.Delete,
          ModelRegisterResource.Delete, stateAfterDelete, DeleteOutcome.isSuccess,
          hid, h404, hcode]

/-- C7 witness: delete of a held identifier answered 500. -/
theorem c7_witness :
    ConnectorResource.Delete (TFString.value "id1") (.response 500 (.ok (.object "boom" []))) =
      (.remoteRejected 500 "boom", true) ∧
    ModelGroupResource.Delete (TFString.value "id1") (.response 500 (.ok (.object "boom" []))) =
      (.remoteRejected 500 "boom", true) ∧
    ModelRegisterResource.Delete (TFString.value "id1") (.response 500 (.ok (.object "boom" []))) =
      (.remoteRejected 500 "boom", true) ∧
    stateAfterDelete (TFString.value "id1")
        (ConnectorResource.Delete (TFString.value "id1")
          (.response 500 (.ok (.object "boom" [])))).1 = some (TFString.value "id1") ∧
    stateAfterDelete (TFString.value "id1")
        (ModelGroupResource.Delete (TFString.value "id1")
          (.response 500 (.ok (.object "boom" [])))).1 = some (TFString.value "id1") ∧
    stateAfterDelete (TFString.value "id1")
        (ModelRegisterResource.Delete (TFString.value "id1")
          (.response 500 (.ok (.object "boom" [])))).1 = some (TFString.value "id1") :=
  c7_delete_rejected_keeps_id (TFString.value "id1") 500 (.object "boom" [])
    rfl (by omega) (by omega)

/-- C8: for every artifact kind, Read with a null, unknown, or empty
identifier immediately reports the artifact absent (the resource is
removed from state) and issues no remote request. -/
theorem c8_read_empty_absent (id : TFString) (pr : PerformResult)
    (h : (id.isNull || id.isUnknown || id.valueString == "") = true) :
    ConnectorResource.Read id pr = (.removedNoID, false) ∧
    ModelGroupResource.Read id pr = (.removedNoID, false) ∧
    ModelRegisterResource.Read id pr = (.removedNoID, false) := by
  refine ⟨?_, ?_, ?_⟩ <;>
    simp [ConnectorResource.Read, ModelGroupResource.Read,
          ModelRegisterResource.Read, h]

/-- C8 witness: null, unknown and empty-string identifiers all report
absent with no request issued. -/
theorem c8_witness :
    (ConnectorResource.Read TFString.null (.transportErr "unused") =
        (.removedNoID, false) ∧
      ModelGroupResource.Read TFString.null (.transportErr "unused") =
        (.removedNoID, false) ∧
      ModelRegisterResource.Read TFString.null (.transportErr "unused") =
        (.removedNoID, false)) ∧
    (ConnectorResource.Read TFString.unknown (.transportErr "unused") =
        (.removedNoID, false) ∧
      ModelGroupResource.Read TFString.unknown (.transportErr "unused") =
        (.removedNoID, false) ∧
      ModelRegisterResource.Read TFString.unknown (.transportErr "unused") =
        (.removedNoID, false)) ∧
    (ConnectorResource.Read (TFString.value "") (.transportErr "unused") =
        (.removedNoID, false) ∧
      ModelGroupResource.Read (TFString.value "") (.transportErr "unused") =
        (.removedNoID, false) ∧
      ModelRegisterResource.Read (TFString.value "") (.transportErr "unused") =
        (.removedNoID, false)) :=
  ⟨c8_read_empty_absent TFString.null (.transportErr "unused") rfl,
   c8_read_empty_absent TFString.unknown (.transportErr "unused") rfl,
   c8_read_empty_absent (TFString.value "") (.transportErr "unused") rfl⟩

/-- C9: for every artifact kind, Update issues no remote request and only
re-stores the planned data (identifier and planned fields) unchanged. -/
theorem c9_update_no_remote_request (cp : ConnectorModel) (gp : ModelGroupModel)
    (rp : ModelRegisterModel) :
    ConnectorResource.Update cp = (cp, 0) ∧
    ModelGroupResource.Update gp = (gp, 0) ∧
    ModelRegisterResource.Update rp = (rp, 0) :=
  ⟨rfl, rfl, rfl⟩

/-- C10: the poller issues no task-status request before the first ticker
tick. The loop issues requests only in the tick branch (at most one per
tick event, never more than the ticks delivered), and a cancellation or
deadline delivered before any tick resolves the call with zero requests
issued; an empty trace (still blocked before the first tick) has also
issued zero requests, so even an already-terminal task is not resolved
before the first tick fires. `time.NewTicker` delivers its first tick
one full poll interval (2 seconds) after the loop starts. -/
theorem c10_no_poll_before_first_tick (taskID : String)
    (rest rest2 trace : List PollEvent) :
    waitForMLTaskCompletion taskID [] = (.stillWaiting, 0) ∧
    (waitForMLTaskCompletion taskID (PollEvent.ctxDone :: rest)).2 = 0 ∧
    (waitForMLTaskCompletion taskID (PollEvent.deadline :: rest2)).2 = 0 ∧
    (waitForMLTaskCompletion taskID trace).2 ≤ trace.countP PollEvent.isTick :=
  ⟨rfl, rfl, rfl, poll_count_le_ticks taskID trace⟩
